import Mathlib

/-!
Shallow embedding of the resumption-handle subsystem of the `resumeback`
library (src/resumeback/__init__.py) and verification of the frozen claims
about it.

The Python code wraps a (possibly weak) reference to a generator object.
We embed:

* the generator lifecycle as seen through the CPython introspection
  attributes `gi_running` and `gi_frame` that the code reads
  (`has_terminated`, `can_resume`, lines 226-243);
* the resume operations `_send` / `_next` / `_throw` (lines 106-109,
  141-151, 183-193), including the `catch_stopiteration` handling of
  `StopIteration` and the `with self._lock` block, whose lock usage is
  recorded as an explicit event list;
* the polling wait loop `_wait` (lines 73-96) as a recursion over a finite
  trace of per-iteration observations (elapsed wall-clock time, whether the
  non-blocking lock acquisition succeeded, the state of the weak generator);
* the wrapper classes `GeneratorWrapper` / `StrongGeneratorWrapper`, their
  `_args` tuple, the strong/weak conversions (lines 63-69, 280-286) and
  Python `==` on wrappers (lines 245-248, 288-292), with `weakref` slots
  modelled by identity ids and a heap mapping slot ids to live referents.
-/

namespace Resumeback

/-- Object identity of a generator object (Python `is`). -/
abbrev GenId := Nat

/-- The four generator lifecycle states of `inspect.getgeneratorstate`:
GEN_CREATED, GEN_RUNNING, GEN_SUSPENDED, GEN_CLOSED. -/
inductive GenState : Type
  | created
  | running
  | suspended
  | closed
deriving DecidableEq, Fintype

/-- A live generator object as seen through the two introspection attributes
the code reads: `gi_running`, and whether `gi_frame` is not `None`. -/
structure GenView : Type where
  gi_running : Bool
  gi_frame_live : Bool
deriving DecidableEq, Fintype

/-- The generator seen through the wrapper's weak reference
(`self.generator`, line 61): `none` when the referent was collected. -/
abbrev GenRef := Option GenView

/-- The introspection view of each lifecycle state: a generator is
`gi_running` exactly while GEN_RUNNING, and loses its `gi_frame`
exactly when it reaches GEN_CLOSED. -/
def viewOf : GenState → GenView
  | .created => ⟨false, true⟩
  | .running => ⟨true, true⟩
  | .suspended => ⟨false, true⟩
  | .closed => ⟨false, false⟩

namespace GeneratorWrapper

/-- `GeneratorWrapper.has_terminated` (lines 226-232):
`gen is None or gen.gi_frame is None`. -/
def has_terminated (gen : GenRef) : Bool :=
  match gen with
  | none => true
  | some g => !g.gi_frame_live

/-- `GeneratorWrapper.can_resume` (lines 234-243):
`gen is not None and not gen.gi_running and gen.gi_frame is not None`. -/
def can_resume (gen : GenRef) : Bool :=
  match gen with
  | none => false
  | some g => !g.gi_running && g.gi_frame_live

end GeneratorWrapper

/-- A wrapper object: the weak variant (class `GeneratorWrapper`) carries the
weak reference slot and the two configuration flags (lines 32-35); the strong
variant (class `StrongGeneratorWrapper`) additionally stores the generator
itself (line 272; `None` if constructed from a dead weak reference).
Weak reference slots are modelled by their identity ids. -/
inductive Wrapper : Type
  | weak (weak_generator : Nat) (catch_stopiteration : Bool) (debug : Bool)
  | strong (generator : Option GenId) (weak_generator : Nat)
      (catch_stopiteration : Bool) (debug : Bool)
deriving DecidableEq

namespace Wrapper

/-- The `weak_generator` attribute (the weak reference slot, by identity). -/
def weak_generator : Wrapper → Nat
  | .weak s _ _ => s
  | .strong _ s _ _ => s

/-- The `catch_stopiteration` attribute. -/
def catch_stopiteration : Wrapper → Bool
  | .weak _ c _ => c
  | .strong _ _ c _ => c

/-- The `debug` attribute. -/
def debug : Wrapper → Bool
  | .weak _ _ d => d
  | .strong _ _ _ d => d

/-- `GeneratorWrapper._args` (lines 53-56): the tuple
`(self.weak_generator, self.catch_stopiteration, self.debug)`. -/
def _args (w : Wrapper) : Nat × Bool × Bool :=
  (w.weak_generator, w.catch_stopiteration, w.debug)

/-- Python `==` on two `weakref.ref` objects: identical objects compare
equal; otherwise, if both referents are alive they are compared (by
identity, for generator objects); otherwise the comparison is identity,
hence false. `env` maps slot ids to their live referent, if any. -/
def weakRefEq (env : Nat → Option GenId) (a b : Nat) : Bool :=
  if a = b then true
  else
    match env a, env b with
    | some x, some y => x == y
    | _, _ => false

/-- `StrongGeneratorWrapper.__init__` (lines 259-278): stores the generator;
if `weak_generator` is `None`, a fresh `weakref.ref(generator)` is allocated,
whose slot id is modelled by `fresh`. -/
def strongInit (generator : Option GenId) (weak_generator : Option Nat)
    (catch_stopiteration debug : Bool) (fresh : Nat) : Wrapper :=
  match weak_generator with
  | some s => .strong generator s catch_stopiteration debug
  | none => .strong generator fresh catch_stopiteration debug

/-- `with_strong_ref` (lines 63-65 and 280-282): the weak variant builds
`StrongGeneratorWrapper(self.generator, *self._args)`, dereferencing the
weak slot through `env`; the strong variant returns itself. -/
def with_strong_ref (env : Nat → Option GenId) (fresh : Nat) :
    Wrapper → Wrapper
  | .weak s c d => strongInit (env s) (some s) c d fresh
  | .strong g s c d => .strong g s c d

/-- `with_weak_ref` (lines 67-69 and 284-286): the weak variant returns
itself; the strong variant builds `GeneratorWrapper(*self._args)`. -/
def with_weak_ref : Wrapper → Wrapper
  | .weak s c d => .weak s c d
  | .strong _ s c d => .weak s c d

/-- Python `==` on two wrapper objects. `GeneratorWrapper.__eq__`
(lines 245-248) compares `_args` but only when `type(other) is
GeneratorWrapper`; `StrongGeneratorWrapper.__eq__` (lines 288-292)
additionally compares the stored generators, only when `type(other) is
StrongGeneratorWrapper`. On mixed variants both sides return
`NotImplemented` and Python falls back to identity, which is false for
objects of distinct types. Comparing `_args` compares the weak reference
slots with weakref equality. -/
def pyEq (env : Nat → Option GenId) : Wrapper → Wrapper → Bool
  | .weak s₁ c₁ d₁, .weak s₂ c₂ d₂ =>
      weakRefEq env s₁ s₂ && (c₁ == c₂) && (d₁ == d₂)
  | .strong g₁ s₁ c₁ d₁, .strong g₂ s₂ c₂ d₂ =>
      (g₁ == g₂) && (weakRefEq env s₁ s₂ && (c₁ == c₂) && (d₁ == d₂))
  | _, _ => false

end Wrapper

/-- What the computation (the wrapped generator's body) does when it is
actually resumed at its current suspension point: yield a next value,
run to completion with a return value (raising `StopIteration` carrying
it), or raise an exception. Values model Python objects, with `none`
standing for Python `None`. -/
inductive ResumeBehavior (α ε : Type) : Type
  | yields (v : Option α)
  | completes (r : Option α)
  | raisesExc (e : ε)
deriving DecidableEq

/-- Exceptions that can escape a resume call, besides `StopIteration`
(which is tracked separately because `catch_stopiteration` treats it
specially). -/
inductive PyError (ε : Type) : Type
  | valueErrorAlreadyExecuting
  | typeErrorJustStarted
  | user (e : ε)
deriving DecidableEq

/-- The raw outcome of CPython's `generator.send` / `generator.throw`:
a yielded value, a `StopIteration` carrying a value, or another exception. -/
inductive PyOutcome (α ε : Type) : Type
  | ok (v : Option α)
  | stopIter (v : Option α)
  | error (e : PyError ε)
deriving DecidableEq

/-- The outcome of resuming a suspended (or just-started) computation with
the given behavior. -/
def runBehavior : ResumeBehavior α ε → PyOutcome α ε
  | .yields v => .ok v
  | .completes r => .stopIter r
  | .raisesExc e => .error (.user e)

/-- CPython `generator.send(value)` by lifecycle state: while GEN_RUNNING it
raises `ValueError("generator already executing")`; on GEN_CLOSED it raises
`StopIteration` with value `None`; on GEN_CREATED it starts the generator if
`value` is `None` and raises `TypeError` otherwise; on GEN_SUSPENDED it
resumes the computation. -/
def genSend (state : GenState) (behavior : ResumeBehavior α ε)
    (value : Option α) : PyOutcome α ε :=
  match state with
  | .running => .error .valueErrorAlreadyExecuting
  | .closed => .stopIter none
  | .created =>
      match value with
      | some _ => .error .typeErrorJustStarted
      | none => runBehavior behavior
  | .suspended => runBehavior behavior

/-- CPython `generator.throw(e)` by lifecycle state: while GEN_RUNNING it
raises `ValueError("generator already executing")`; on GEN_CLOSED or
GEN_CREATED the thrown exception propagates back; on GEN_SUSPENDED the
exception is raised at the suspension point and `response` describes what
the computation does with it. -/
def genThrow (state : GenState) (e : ε) (response : ResumeBehavior α ε) :
    PyOutcome α ε :=
  match state with
  | .running => .error .valueErrorAlreadyExecuting
  | .closed => .error (.user e)
  | .created => .error (.user e)
  | .suspended => runBehavior response

/-- What a wrapper resume call does: return a value normally, raise
`StopIteration` (only possible with `catch_stopiteration=False`), or raise
another exception. -/
inductive CallResult (α ε : Type) : Type
  | returns (v : Option α)
  | raisesStopIter (v : Option α)
  | raises (e : PyError ε)
deriving DecidableEq

/-- Events on the wrapper's `self._lock` (an `RLock`), in order:
a blocking `acquire` (entering `with self._lock`), a non-blocking
`self._lock.acquire(False)` with its result, and `release`. -/
inductive LockEvent : Type
  | acquire
  | tryAcquire (ok : Bool)
  | release
deriving DecidableEq

/-- A resume call's result together with the lock events it performed. -/
structure Call (α ε : Type) : Type where
  result : CallResult α ε
  lockEvents : List LockEvent
deriving DecidableEq

namespace GeneratorWrapper

/-- `GeneratorWrapper._send` (lines 141-151): under `with self._lock`, call
`generator.send(value)`; with `catch_stopiteration`, a `StopIteration` is
caught and its `value` returned; otherwise every outcome propagates as is.
The `with` block acquires the lock on entry and releases it on exit, also
when an exception propagates. -/
def _send (catch_stopiteration : Bool) (state : GenState)
    (behavior : ResumeBehavior α ε) (value : Option α := none) : Call α ε :=
  { result :=
      if catch_stopiteration then
        match genSend state behavior value with
        | .ok v => .returns v
        | .stopIter v => .returns v
        | .error e => .raises e
      else
        match genSend state behavior value with
        | .ok v => .returns v
        | .stopIter v => .raisesStopIter v
        | .error e => .raises e
    lockEvents := [.acquire, .release] }

/-- `GeneratorWrapper._next` (lines 106-109): `return self._send(generator)`
with no value. -/
def _next (catch_stopiteration : Bool) (state : GenState)
    (behavior : ResumeBehavior α ε) : Call α ε :=
  _send catch_stopiteration state behavior

/-- `GeneratorWrapper._throw` (lines 183-193): under `with self._lock`, call
`generator.throw(...)`, with the same `catch_stopiteration` handling as
`_send`. -/
def _throw (catch_stopiteration : Bool) (state : GenState) (e : ε)
    (response : ResumeBehavior α ε) : Call α ε :=
  { result :=
      if catch_stopiteration then
        match genThrow state e response with
        | .ok v => .returns v
        | .stopIter v => .returns v
        | .error e => .raises e
      else
        match genThrow state e response with
        | .ok v => .returns v
        | .stopIter v => .raisesStopIter v
        | .error e => .raises e
    lockEvents := [.acquire, .release] }

end GeneratorWrapper

/-- One polling iteration's environment in `_wait`: the wall-clock time
that elapses over the iteration (`time.time() - last_time`), whether
`self._lock.acquire(False)` succeeded, and the state of the weak generator
at that instant (feeding `can_resume` / `has_terminated`). -/
structure PollObs : Type where
  elapsed : ℚ
  acquired : Bool
  gen : GenRef
deriving DecidableEq

/-- Outcome of `_wait`: the inner method's result was returned; a
`RuntimeError("... has already terminated")` was raised, carrying the
generator; a `WaitTimeoutError` was raised, carrying the generator and the
original timeout (line 93); or the finite observation trace ran out while
the loop would still be polling, with the remaining budget. -/
inductive WaitResult (α ε : Type) : Type
  | finished (c : CallResult α ε)
  | terminatedError (g : Option GenId)
  | timedOut (g : Option GenId) (original_timeout : Option ℚ)
  | pending (remaining : Option ℚ)
deriving DecidableEq

/-- The `while` condition of `_wait` (line 79):
`timeout is None or timeout > 0`. -/
def stillWaiting : Option ℚ → Bool
  | none => true
  | some t => decide (0 < t)

/-- The budget update at the end of an iteration (lines 90-91):
`if timeout is not None: timeout -= time.time() - last_time`. -/
def decTimeout : Option ℚ → ℚ → Option ℚ
  | none, _ => none
  | some t, d => some (t - d)

namespace GeneratorWrapper

/-- The polling loop of `GeneratorWrapper._wait` (lines 78-96), recursing
over a finite trace of per-iteration observations. `g` is the generator the
wait was invoked on (by identity, `none` if dead), `method` the resume
operation to perform (its outcome may depend on the instant it runs),
`original_timeout` the configured timeout kept for the error message, and
the last argument the remaining budget. Each iteration: if the `while`
condition fails, raise `WaitTimeoutError`; else try the lock without
blocking; on success check `can_resume` (perform the resume and return its
result) then `has_terminated` (raise `RuntimeError`), releasing the lock in
the `finally`; otherwise decrement the budget by the elapsed time and loop.
The second component collects the lock events in order. -/
def waitAux (g : Option GenId) (method : PollObs → Call α ε)
    (original_timeout : Option ℚ) :
    Option ℚ → List PollObs → WaitResult α ε × List LockEvent
  | timeout, [] =>
      if stillWaiting timeout then (.pending timeout, [])
      else (.timedOut g original_timeout, [])
  | timeout, obs :: rest =>
      if stillWaiting timeout then
        if obs.acquired then
          if can_resume obs.gen then
            let c := method obs
            (.finished c.result, .tryAcquire true :: c.lockEvents ++ [.release])
          else if has_terminated obs.gen then
            (.terminatedError g, [.tryAcquire true, .release])
          else
            let r := waitAux g method original_timeout
              (decTimeout timeout obs.elapsed) rest
            (r.1, .tryAcquire true :: .release :: r.2)
        else
          let r := waitAux g method original_timeout
            (decTimeout timeout obs.elapsed) rest
          (r.1, .tryAcquire false :: r.2)
      else (.timedOut g original_timeout, [])

/-- `GeneratorWrapper._wait` (lines 73-96): enters the polling loop with
`original_timeout = timeout`. The waiting resume operations `_next_wait`,
`_send_wait` and `_throw_wait` (lines 116-117, 158-159, 200-202) are each
exactly this applied to the corresponding resume method. -/
def _wait (g : Option GenId) (method : PollObs → Call α ε)
    (timeout : Option ℚ) (trace : List PollObs) :
    WaitResult α ε × List LockEvent :=
  waitAux g method timeout timeout trace

end GeneratorWrapper

/-- Helper shared by several proofs: a terminated generator is never
resumable — `has_terminated` demands the referent be gone or its frame
gone, while `can_resume` demands a live referent with a live frame. -/
lemma not_resumable_of_terminated (gen : GenRef)
    (h : GeneratorWrapper.has_terminated gen = true) :
    GeneratorWrapper.can_resume gen = false := by
  cases gen with
  | none => rfl
  | some g =>
      simp [GeneratorWrapper.has_terminated] at h
      simp [GeneratorWrapper.can_resume, h]

/-- Claim C6, counterexample: the claim says `can_resume()` is true iff the
state is SUSPENDED, and in particular false in CREATED; but for a generator
in GEN_CREATED (not running, frame live) the code returns true, exactly as
its own comment (lines 236-239) says. -/
theorem can_resume_created_cex :
    GeneratorWrapper.can_resume (some (viewOf GenState.created)) = true := rfl

/-- Claim C6, amended: `can_resume()` is true iff the weak reference's
target exists and its state is CREATED or SUSPENDED; it is false in the
RUNNING and CLOSED states and when the target is gone. -/
theorem can_resume_iff_created_or_suspended :
    GeneratorWrapper.can_resume none = false
    ∧ ∀ s : GenState,
        GeneratorWrapper.can_resume (some (viewOf s)) =
          (decide (s = GenState.created) || decide (s = GenState.suspended)) := by
  constructor
  · rfl
  · intro s; cases s <;> rfl

/-- Claim C9: for every observable state of the weak generator,
`can_resume()` and `has_terminated()` are never both true. -/
theorem can_resume_has_terminated_never_both :
    ∀ gen : GenRef,
      (GeneratorWrapper.can_resume gen && GeneratorWrapper.has_terminated gen)
        = false := by decide

/-- Claim C7, counterexample: a weak handle and a strong handle that
reference the same computation (weak slot 5, live referent 0) and carry the
same configuration still compare unequal, because each `__eq__` requires the
other operand's exact type; so equality is not independent of the handle
variant. -/
theorem pyEq_cross_variant_cex :
    Wrapper.pyEq (fun _ => some 0) (Wrapper.weak 5 true false)
        (Wrapper.strong (some 0) 5 true false) = false
    ∧ (Wrapper.strong (some 0) 5 true false)._args
        = (Wrapper.weak 5 true false)._args := ⟨rfl, rfl⟩

/-- Claim C7, amended: two handles of the same variant compare equal iff
they reference the same computation and carry the same configuration (for
strong handles, also the same stored generator); handles of different
variants never compare equal, since both `__eq__` methods return
`NotImplemented` and Python falls back to identity. -/
theorem pyEq_same_variant_characterization (env : Nat → Option GenId) :
    (∀ s₁ c₁ d₁ s₂ c₂ d₂,
        (Wrapper.pyEq env (.weak s₁ c₁ d₁) (.weak s₂ c₂ d₂) = true ↔
          Wrapper.weakRefEq env s₁ s₂ = true ∧ c₁ = c₂ ∧ d₁ = d₂))
    ∧ (∀ g₁ s₁ c₁ d₁ g₂ s₂ c₂ d₂,
        (Wrapper.pyEq env (.strong g₁ s₁ c₁ d₁) (.strong g₂ s₂ c₂ d₂) = true ↔
          g₁ = g₂ ∧ Wrapper.weakRefEq env s₁ s₂ = true ∧ c₁ = c₂ ∧ d₁ = d₂))
    ∧ (∀ s₁ c₁ d₁ g₂ s₂ c₂ d₂,
        Wrapper.pyEq env (.weak s₁ c₁ d₁) (.strong g₂ s₂ c₂ d₂) = false)
    ∧ (∀ g₁ s₁ c₁ d₁ s₂ c₂ d₂,
        Wrapper.pyEq env (.strong g₁ s₁ c₁ d₁) (.weak s₂ c₂ d₂) = false) := by
  refine ⟨?_, ?_, ?_, ?_⟩ <;> intros <;>
    simp [Wrapper.pyEq, and_assoc]

/-- Claim C2: for every handle, `with_weak_ref().with_strong_ref().with_weak_ref()`
yields a handle comparing equal to `with_weak_ref()` of the original and
carrying the identical weak-reference slot; both conversions preserve the
whole `_args` tuple (weak slot, `catch_stopiteration`, `debug`), and
`with_strong_ref` never allocates a new weak-reference slot (its result does
not depend on the id `fresh` that a fresh allocation would use). -/
theorem with_ref_roundtrip (env : Nat → Option GenId) (fresh fresh' : Nat)
    (w : Wrapper) :
    Wrapper.pyEq env ((w.with_weak_ref.with_strong_ref env fresh).with_weak_ref)
        w.with_weak_ref = true
    ∧ ((w.with_weak_ref.with_strong_ref env fresh).with_weak_ref).weak_generator
        = w.weak_generator
    ∧ (w.with_strong_ref env fresh)._args = w._args
    ∧ w.with_weak_ref._args = w._args
    ∧ w.with_strong_ref env fresh = w.with_strong_ref env fresh' := by
  cases w <;>
    simp [Wrapper.with_weak_ref, Wrapper.with_strong_ref, Wrapper.strongInit,
      Wrapper.pyEq, Wrapper.weakRefEq, Wrapper._args, Wrapper.weak_generator,
      Wrapper.catch_stopiteration, Wrapper.debug]

/-- Claim C1, counterexample: the claim says a resume issued while the
computation is CLOSED fails and never returns a value; but with the default
`catch_stopiteration=True`, sending to a closed generator raises
`StopIteration` (value `None`), which `_send` catches and returns — the call
returns `None` instead of failing. -/
theorem send_closed_returns_cex :
    (GeneratorWrapper._send (α := Nat) (ε := Unit) true GenState.closed
        (ResumeBehavior.yields none) none).result
      = CallResult.returns none := rfl

/-- Claim C1, amended: a resume (`_send`, and `_next` which delegates to
it) issued while the computation is RUNNING always fails with
`ValueError("generator already executing")` and never returns a value or
queues; issued while CLOSED it fails (with `StopIteration`) only when
`catch_stopiteration` is false, and otherwise returns the caught
`StopIteration` value `None`. -/
theorem resume_running_closed {α ε : Type} (c : Bool)
    (b : ResumeBehavior α ε) (v : Option α) :
    (GeneratorWrapper._send c GenState.running b v).result
        = CallResult.raises PyError.valueErrorAlreadyExecuting
    ∧ (GeneratorWrapper._next c GenState.running b).result
        = CallResult.raises PyError.valueErrorAlreadyExecuting
    ∧ (GeneratorWrapper._send true GenState.closed b v).result
        = CallResult.returns none
    ∧ (GeneratorWrapper._send false GenState.closed b v).result
        = CallResult.raisesStopIter none := by
  refine ⟨?_, ?_, rfl, rfl⟩ <;> cases c <;> rfl

/-- Claim C3: with `catch_stopiteration=True` (completion not propagated as
an error), a computation that runs to completion with value 42 during a
`next()` call makes that call return 42; with the flag false, the call
re-raises the `StopIteration` completion signal carrying 42. -/
theorem completion_value_returned :
    (GeneratorWrapper._next (α := Nat) (ε := Unit) true GenState.suspended
        (ResumeBehavior.completes (some 42))).result
      = CallResult.returns (some 42)
    ∧ (GeneratorWrapper._next (α := Nat) (ε := Unit) false GenState.suspended
        (ResumeBehavior.completes (some 42))).result
      = CallResult.raisesStopIter (some 42) := ⟨rfl, rfl⟩

/-- Claim C5, counterexample: the claim says a direct (non-waiting) resume
call does not take the handle's lock; but `_send` runs its whole body under
`with self._lock` (line 144), so its lock-event trace contains a blocking
acquire. -/
theorem direct_resume_takes_lock_cex :
    LockEvent.acquire ∈
      (GeneratorWrapper._send (α := Nat) (ε := Unit) true GenState.suspended
        (ResumeBehavior.yields none) none).lockEvents := by decide

/-- Claim C5, amended: every direct resume call (`_send`, `_next`, `_throw`)
acquires and releases the handle's mutual-exclusion primitive (`with
self._lock`, lines 144 and 186), so direct resumes serialize with the
waiting resume operations through that same lock instead of racing with
them; only calling the raw generator's own methods bypasses it. -/
theorem resume_lock_events {α ε : Type} (c : Bool) (st : GenState)
    (b rs : ResumeBehavior α ε) (v : Option α) (e : ε) :
    (GeneratorWrapper._send c st b v).lockEvents
        = [LockEvent.acquire, LockEvent.release]
    ∧ (GeneratorWrapper._next c st b).lockEvents
        = [LockEvent.acquire, LockEvent.release]
    ∧ (GeneratorWrapper._throw c st e rs).lockEvents
        = [LockEvent.acquire, LockEvent.release] := ⟨rfl, rfl, rfl⟩

/-- Helper: whenever the wait loop raises `WaitTimeoutError`, the error
carries the generator the wait was invoked on and the originally configured
timeout, whatever the remaining budget was. -/
lemma waitAux_timedOut_inv {α ε : Type} (g : Option GenId)
    (method : PollObs → Call α ε) (origT : Option ℚ) :
    ∀ (trace : List PollObs) (timeout : Option ℚ) (g' : Option GenId)
      (o : Option ℚ),
      (GeneratorWrapper.waitAux g method origT timeout trace).1 =
        WaitResult.timedOut g' o → g' = g ∧ o = origT := by
  intro trace
  induction trace with
  | nil =>
      intro timeout g' o h
      by_cases hw : stillWaiting timeout = true <;>
        simp [GeneratorWrapper.waitAux, hw] at h
      exact ⟨h.1.symm, h.2.symm⟩
  | cons obs rest ih =>
      intro timeout g' o h
      by_cases hw : stillWaiting timeout = true
      · by_cases ha : obs.acquired = true
        · by_cases hc : GeneratorWrapper.can_resume obs.gen = true
          · simp [GeneratorWrapper.waitAux, hw, ha, hc] at h
          · by_cases ht : GeneratorWrapper.has_terminated obs.gen = true
            · simp [GeneratorWrapper.waitAux, hw, ha, hc, ht] at h
            · simp only [GeneratorWrapper.waitAux, hw, ha, hc, ht,
                if_true, if_false, Bool.false_eq_true] at h
              exact ih _ _ _ h
        · simp only [GeneratorWrapper.waitAux, hw, ha,
            if_true, if_false, Bool.false_eq_true] at h
          exact ih _ _ _ h
      · simp [GeneratorWrapper.waitAux, hw] at h
        exact ⟨h.1.symm, h.2.symm⟩

/-- Helper: with no timeout configured, the wait loop never raises
`WaitTimeoutError`, over any finite observation trace. -/
lemma waitAux_none_never_timedOut {α ε : Type} (g : Option GenId)
    (method : PollObs → Call α ε) (origT : Option ℚ) :
    ∀ (trace : List PollObs) (g' : Option GenId) (o : Option ℚ),
      (GeneratorWrapper.waitAux g method origT none trace).1 ≠
        WaitResult.timedOut g' o := by
  intro trace
  induction trace with
  | nil =>
      intro g' o h
      simp [GeneratorWrapper.waitAux, stillWaiting] at h
  | cons obs rest ih =>
      intro g' o h
      by_cases ha : obs.acquired = true
      · by_cases hc : GeneratorWrapper.can_resume obs.gen = true
        · simp [GeneratorWrapper.waitAux, stillWaiting, ha, hc] at h
        · by_cases ht : GeneratorWrapper.has_terminated obs.gen = true
          · simp [GeneratorWrapper.waitAux, stillWaiting, ha, hc, ht] at h
          · simp only [GeneratorWrapper.waitAux, stillWaiting, ha, hc, ht,
              if_true, if_false, Bool.false_eq_true, decTimeout] at h
            exact ih _ _ h
      · simp only [GeneratorWrapper.waitAux, stillWaiting, ha,
          if_true, if_false, Bool.false_eq_true, decTimeout] at h
        exact ih _ _ h

/-- Claim C4: the waiting resume loop (`_wait`, shared by `_next_wait`,
`_send_wait` and `_throw_wait`) (i) decrements the remaining budget of a
numeric timeout by exactly the wall-clock time that elapsed over each
polling iteration that neither resumes nor fails; (ii) once the budget is
no longer positive it raises `WaitTimeoutError`; (iii) any
`WaitTimeoutError` it raises carries the object waited on and the
originally configured timeout; (iv) with timeout `None` it loops
indefinitely and never raises `WaitTimeoutError`. -/
theorem wait_budget_spec {α ε : Type} (g : Option GenId)
    (method : PollObs → Call α ε) :
    (∀ (origT : Option ℚ) (t : ℚ) (obs : PollObs) (rest : List PollObs),
        0 < t →
        (obs.acquired = false ∨
          (GeneratorWrapper.can_resume obs.gen = false ∧
            GeneratorWrapper.has_terminated obs.gen = false)) →
        (GeneratorWrapper.waitAux g method origT (some t) (obs :: rest)).1 =
          (GeneratorWrapper.waitAux g method origT
            (some (t - obs.elapsed)) rest).1)
    ∧ (∀ (origT : Option ℚ) (t : ℚ) (trace : List PollObs), t ≤ 0 →
        (GeneratorWrapper.waitAux g method origT (some t) trace).1 =
          WaitResult.timedOut g origT)
    ∧ (∀ (t : ℚ) (trace : List PollObs) (g' : Option GenId) (o : Option ℚ),
        (GeneratorWrapper._wait g method (some t) trace).1 =
          WaitResult.timedOut g' o → o = some t)
    ∧ (∀ (trace : List PollObs) (g' : Option GenId) (o : Option ℚ),
        (GeneratorWrapper._wait g method none trace).1 ≠
          WaitResult.timedOut g' o) := by
  refine ⟨?_, ?_, ?_, ?_⟩
  · intro origT t obs rest hpos hside
    have hw : stillWaiting (some t) = true := by
      simp [stillWaiting, hpos]
    rcases hside with ha | ⟨hc, ht⟩
    · simp [GeneratorWrapper.waitAux, hw, ha, decTimeout]
    · by_cases ha : obs.acquired = true
      · simp [GeneratorWrapper.waitAux, hw, ha, hc, ht, decTimeout]
      · simp [GeneratorWrapper.waitAux, hw, ha, decTimeout]
  · intro origT t trace hle
    have hw : stillWaiting (some t) = false := by
      simp [stillWaiting]
      linarith
    cases trace <;> simp [GeneratorWrapper.waitAux, hw]
  · intro t trace g' o h
    exact (waitAux_timedOut_inv g method (some t) trace (some t) g' o h).2
  · intro trace g' o
    exact waitAux_none_never_timedOut g method none trace g' o

/-- Witness for C4: at timeout 0 with an empty trace, the loop raises
`WaitTimeoutError` carrying the configured timeout. -/
theorem wait_budget_spec_witness :
    (0 : ℚ) ≤ 0
    ∧ (GeneratorWrapper.waitAux (α := Nat) (ε := Unit) none
        (fun _ => ⟨CallResult.returns none, []⟩) (some 5) (some 0) []).1 =
        WaitResult.timedOut none (some 5) :=
  ⟨le_refl 0,
    (wait_budget_spec none (fun _ => ⟨CallResult.returns none, []⟩)).2.1
      (some 5) 0 [] (le_refl 0)⟩

/-- Claim C8: if a polling iteration of a waiting resume operation acquires
the lock and observes `has_terminated()` true (the target gone or its frame
gone, hence not merely running), the wait fails at that very iteration with
the `RuntimeError("... has already terminated")`, regardless of the
remaining budget and of any further observations — it does not keep waiting
for the timeout to expire. -/
theorem wait_terminated_fails_immediately {α ε : Type} (g : Option GenId)
    (method : PollObs → Call α ε) (origT timeout : Option ℚ)
    (obs : PollObs) (rest : List PollObs)
    (hw : stillWaiting timeout = true)
    (hacq : obs.acquired = true)
    (hterm : GeneratorWrapper.has_terminated obs.gen = true) :
    GeneratorWrapper.waitAux g method origT timeout (obs :: rest) =
      (WaitResult.terminatedError g,
        [LockEvent.tryAcquire true, LockEvent.release]) := by
  have hcr : GeneratorWrapper.can_resume obs.gen = false :=
    not_resumable_of_terminated _ hterm
  simp [GeneratorWrapper.waitAux, hw, hacq, hcr, hterm]

/-- Witness for C8: waiting with no timeout on a collected generator (weak
target gone) fails immediately with the already-terminated error at the
first lock-acquiring iteration. -/
theorem wait_terminated_fails_immediately_witness :
    stillWaiting none = true
    ∧ GeneratorWrapper.waitAux (α := Nat) (ε := Unit) (some 0)
        (fun _ => ⟨CallResult.returns none, []⟩) none none
        [⟨0, true, none⟩] =
        (WaitResult.terminatedError (some 0),
          [LockEvent.tryAcquire true, LockEvent.release]) :=
  ⟨rfl,
    wait_terminated_fails_immediately (some 0)
      (fun _ => ⟨CallResult.returns none, []⟩) none none
      ⟨0, true, none⟩ [] rfl rfl rfl⟩

/-- Claim C10: a waiting resume operation called with a timeout that is not
positive raises `WaitTimeoutError` at once — the loop body never runs, so
the lock is never touched (no lock events) and no resume is attempted, even
on a trace whose first observation would have been resumable. -/
theorem wait_nonpositive_timeout {α ε : Type} (g : Option GenId)
    (method : PollObs → Call α ε) (t : ℚ) (trace : List PollObs)
    (h : t ≤ 0) :
    GeneratorWrapper._wait g method (some t) trace =
      (WaitResult.timedOut g (some t), []) := by
  have hw : stillWaiting (some t) = false := by
    simp [stillWaiting]
    linarith
  cases trace <;>
    simp [GeneratorWrapper._wait, GeneratorWrapper.waitAux, hw]

/-- Witness for C10: timeout 0 on a trace whose first iteration would have
acquired the lock and found the generator resumable still times out at once
with no lock events. -/
theorem wait_nonpositive_timeout_witness :
    (0 : ℚ) ≤ 0
    ∧ GeneratorWrapper._wait (α := Nat) (ε := Unit) none
        (fun _ => ⟨CallResult.returns none, []⟩) (some 0)
        [⟨1, true, some ⟨false, true⟩⟩] =
        (WaitResult.timedOut none (some 0), []) :=
  ⟨le_refl 0,
    wait_nonpositive_timeout none (fun _ => ⟨CallResult.returns none, []⟩)
      0 [⟨1, true, some ⟨false, true⟩⟩] (le_refl 0)⟩

end Resumeback
